import Mathlib

/-!
Shallow embedding of the cooking-app server (the newest revision of
src/index.js) together with proofs about its authorization layer.

The embedding models:
  - authorization-header parsing and the JWT middleware, with the external
    identity provider passed in as a function argument;
  - the role gates (admin gate, chef gate) and the fraud-status gates;
  - the document store as explicit per-collection lists, with the values
    the store generates at runtime (document ids, clock readings, the
    random chef-id draw) passed in as explicit arguments;
  - the HTTP responses each route can send, including the case of a
    handler that throws synchronously outside any try/catch block and
    therefore sends no response at all.
-/

namespace CookApp

/-- The distinct internal causes with which the identity provider can
reject a token. -/
inductive VerifyError where
  | expired
  | malformedToken
  | badSignature
  | providerUnavailable
  deriving DecidableEq

/-- Result of the verifyJWT middleware. -/
inductive AuthResult where
  | ok (email : String)
  | noToken
  | verifyFailed (e : VerifyError)
  deriving DecidableEq

/-- A stored user document (users collection).  Role and status are
optional because self-registration stores whatever the client sent. -/
structure UserRecord where
  email : String
  role : Option String
  status : Option String
  chefId : Option String
  deriving DecidableEq

/-- A stored meal document (meals collection). -/
structure MealDoc where
  oid : String
  chefEmail : Option String
  title : String
  createdAt : Option Nat
  deriving DecidableEq

/-- A stored favorite document (favorites collection). -/
structure FavoriteDoc where
  oid : String
  userEmail : String
  mealId : String
  addedTime : Option Nat
  deriving DecidableEq

/-- A stored order document (orders collection). -/
structure OrderDoc where
  oid : String
  userEmail : Option String
  chefEmail : Option String
  price : Nat
  quantity : Nat
  orderTime : Option Nat
  orderStatus : Option String
  paymentStatus : Option String
  createdAt : Option Nat
  deriving DecidableEq

/-- A stored role-request document (roleRequests collection). -/
structure RoleRequestDoc where
  oid : String
  userEmail : String
  requestType : String
  requestTime : Option Nat
  requestStatus : String
  deriving DecidableEq

/-- A stored payment document (payments collection). -/
structure PaymentDoc where
  oid : String
  orderId : String
  paymentInfo : String
  time : Nat
  deriving DecidableEq

/-- The responses the embedded routes can send.  thrown stands for a
synchronous exception escaping a handler that has no try/catch, in which
case no HTTP response is produced. -/
inductive Response where
  | message (status : Nat) (msg : String)
  | authFail (msg : String) (err : VerifyError)
  | fraudBlock (errorType : String) (msg : String)
  | insertResult (insertedId : String)
  | successInsert (insertedId : String)
  | successMsg (msg : String)
  | successOnly
  | existsAck
  | deleteResult (deletedCount : Nat)
  | mealDoc (m : MealDoc)
  | orderDoc (o : OrderDoc)
  | thrown
  deriving DecidableEq

/-- HTTP status actually sent to the caller; none when the handler threw
without responding. -/
def Response.statusCode : Response → Option Nat
  | .message s _ => some s
  | .authFail _ _ => some 401
  | .fraudBlock _ _ => some 403
  | .thrown => none
  | _ => some 200

/-- The document store: one list per collection, in insertion order. -/
structure DB where
  users : List UserRecord
  meals : List MealDoc
  favorites : List FavoriteDoc
  orders : List OrderDoc
  roleRequests : List RoleRequestDoc
  payments : List PaymentDoc
  deriving DecidableEq

def emptyDB : DB := ⟨[], [], [], [], [], []⟩

/-- findOne on the users collection keyed by email. -/
def findUserByEmail (db : DB) (e : String) : Option UserRecord :=
  db.users.find? (fun x => x.email == e)

/-- findOne on the meals collection keyed by _id. -/
def findMealById (db : DB) (i : String) : Option MealDoc :=
  db.meals.find? (fun m => m.oid == i)

/-- findOne on the orders collection keyed by _id. -/
def findOrderById (db : DB) (i : String) : Option OrderDoc :=
  db.orders.find? (fun o => o.oid == i)

/-- findOne on the roleRequests collection keyed by _id. -/
def findRoleRequestById (db : DB) (i : String) : Option RoleRequestDoc :=
  db.roleRequests.find? (fun r => r.oid == i)

/-- updateOne: rewrite the first document matching the predicate. -/
def updateFirst (p : α → Bool) (f : α → α) : List α → List α
  | [] => []
  | a :: as => if p a then f a :: as else a :: updateFirst p f as

/-- deleteOne: remove the first document matching the predicate,
returning the deleted count. -/
def removeFirst (p : α → Bool) : List α → Nat × List α
  | [] => (0, [])
  | a :: as =>
    if p a then (1, as)
    else
      let r := removeFirst p as
      (r.1, a :: r.2)

/-- One character of a hexadecimal ObjectId string. -/
def hexDigit (c : Char) : Bool :=
  c.isDigit || (('a' ≤ c) && (c ≤ 'f')) || (('A' ≤ c) && (c ≤ 'F'))

/-- ObjectId.isValid of the mongodb driver on strings: a 12-byte string
or a 24-character hex string. -/
def isValidObjectId (s : String) : Bool :=
  s.length == 12 || (s.length == 24 && s.data.all hexDigit)

/-- The semantics of the JavaScript split on a single space: at least one
field, empty fields kept. -/
def splitSpace : List Char → List (List Char)
  | [] => [[]]
  | c :: rest =>
    let r := splitSpace rest
    if c = ' ' then [] :: r
    else
      match r with
      | [] => [[c]]
      | w :: ws => (c :: w) :: ws

/-- getTokenFromHeader of src/index.js: a falsy header yields null, then
the header must split into exactly two space-separated parts and the
second part is the token. -/
def getTokenFromHeader (authHeader : Option String) : Option String :=
  match authHeader with
  | none => none
  | some a =>
    if a = "" then none
    else
      let parts := splitSpace a.data
      if parts.length = 2 then some (String.mk (parts.getD 1 [])) else none

/-- verifyJWT of src/index.js.  The identity provider is the argument
verify; a falsy (empty) token short-circuits before verification. -/
def verifyJWT (verify : String → Except VerifyError String)
    (authHeader : Option String) : AuthResult :=
  match getTokenFromHeader authHeader with
  | none => .noToken
  | some token =>
    if token = "" then .noToken
    else
      match verify token with
      | .ok email => .ok email
      | .error e => .verifyFailed e

/-- A request header that is missing or does not split into exactly two
space-separated segments. -/
def malformedHeader : Option String → Bool
  | none => true
  | some a => !((splitSpace a.data).length == 2)

/-- Express middleware chaining for a route behind verifyJWT: a failed
authentication sends the 401 response and the handler never runs. -/
def protectedRoute (verify : String → Except VerifyError String)
    (authHeader : Option String) (handler : String → DB → Response × DB)
    (db : DB) : Response × DB :=
  match verifyJWT verify authHeader with
  | .ok email => handler email db
  | .noToken => (.message 401 "Unauthorized Access!", db)
  | .verifyFailed e => (.authFail "Unauthorized Access!" e, db)

/-- verifyAdmin of src/index.js: a missing record and a non-admin role
both produce the same 403 response. -/
def verifyAdmin (tokenEmail : String) (db : DB) : Option Response :=
  match findUserByEmail db tokenEmail with
  | none => some (.message 403 "Admin only!")
  | some u => if u.role ≠ some "admin" then some (.message 403 "Admin only!") else none

/-- verifyChef of src/index.js: a missing record produces 404, a role
that is neither chef nor admin produces 403. -/
def verifyChef (tokenEmail : String) (db : DB) : Option Response :=
  match findUserByEmail db tokenEmail with
  | none => some (.message 404 "User not found!")
  | some u =>
    if u.role ≠ some "chef" ∧ u.role ≠ some "admin" then
      some (.message 403 "Access denied! Chef only.")
    else none

/-- Route segment behind verifyAdmin. -/
def adminGuarded (tokenEmail : String) (db : DB)
    (handler : String → DB → Response × DB) : Response × DB :=
  match verifyAdmin tokenEmail db with
  | some r => (r, db)
  | none => handler tokenEmail db

/-- Route segment behind verifyChef. -/
def chefGuarded (tokenEmail : String) (db : DB)
    (handler : String → DB → Response × DB) : Response × DB :=
  match verifyChef tokenEmail db with
  | some r => (r, db)
  | none => handler tokenEmail db

/-- Request body of POST /users.  Fields absent from the JSON body are
none; the JavaScript truthiness test on the email also rejects the empty
string. -/
structure UserBody where
  email : Option String
  role : Option String
  status : Option String
  deriving DecidableEq

/-- Request body of POST /meals. -/
structure MealBody where
  chefEmail : Option String
  title : String
  deriving DecidableEq

/-- Request body of POST /favorites. -/
structure FavoriteBody where
  userEmail : Option String
  mealId : Option String
  deriving DecidableEq

/-- Request body of POST /orders. -/
structure OrderBody where
  userEmail : Option String
  chefEmail : Option String
  price : Nat
  quantity : Nat
  deriving DecidableEq

/-- Request body of POST /role-requests. -/
structure RoleRequestBody where
  userEmail : Option String
  requestType : Option String
  deriving DecidableEq

/-- Request body of POST /payment-success. -/
structure PaymentSuccessBody where
  orderId : String
  paymentInfo : String
  deriving DecidableEq

/-- POST /users handler: requires a truthy email, requires the body email
to equal the token email, treats an existing record as a no-op success,
otherwise inserts the body. -/
def usersPostHandler (tokenEmail : String) (body : UserBody)
    (genId : String) (db : DB) : Response × DB :=
  if body.email.getD "" = "" then (.message 400 "email required", db)
  else if tokenEmail ≠ body.email.getD "" then (.message 403 "Forbidden!", db)
  else
    match findUserByEmail db (body.email.getD "") with
    | some _ => (.message 200 "User already exists", db)
    | none =>
      (.insertResult genId,
       { db with users := db.users ++
           [{ email := body.email.getD "", role := body.role,
              status := body.status, chefId := none }] })

/-- POST /users route: verifyJWT then the handler. -/
def postUsers (verify : String → Except VerifyError String)
    (hdr : Option String) (body : UserBody) (genId : String) (db : DB) :
    Response × DB :=
  protectedRoute verify hdr (fun e d => usersPostHandler e body genId d) db

/-- The meal document POST /meals stores: the client body with createdAt
overwritten by the server clock. -/
def mealFromBody (genId : String) (body : MealBody) (now : Nat) : MealDoc :=
  { oid := genId, chefEmail := body.chefEmail, title := body.title,
    createdAt := some now }

/-- POST /meals handler (runs after verifyChef): re-reads the user record
and blocks a fraud-flagged chef, then inserts the client body unchanged.
A missing record would make the JavaScript dereference null and throw. -/
def mealsPostHandler (tokenEmail : String) (body : MealBody) (now : Nat)
    (genId : String) (db : DB) : Response × DB :=
  match findUserByEmail db tokenEmail with
  | none => (.thrown, db)
  | some u =>
    if u.role = some "chef" ∧ u.status = some "fraud" then
      (.fraudBlock "FRAUD_USER" "You are marked as fraud. You cannot create meals.", db)
    else
      (.insertResult genId,
       { db with meals := db.meals ++ [mealFromBody genId body now] })

/-- POST /meals route: verifyJWT, verifyChef, then the handler. -/
def postMeals (verify : String → Except VerifyError String)
    (hdr : Option String) (body : MealBody) (now : Nat) (genId : String)
    (db : DB) : Response × DB :=
  protectedRoute verify hdr
    (fun e d => chefGuarded e d (fun e' d' => mealsPostHandler e' body now genId d')) db

/-- The order document POST /orders stores: the client body with the
server-set time stamps and default statuses. -/
def orderFromBody (genId : String) (body : OrderBody) (now : Nat) : OrderDoc :=
  { oid := genId, userEmail := body.userEmail, chefEmail := body.chefEmail,
    price := body.price, quantity := body.quantity, orderTime := some now,
    orderStatus := some "pending", paymentStatus := some "pending",
    createdAt := some now }

/-- POST /orders handler: blocks a fraud-flagged record whose role is
exactly user, then inserts the client body with server-set defaults.  A
missing record makes the JavaScript dereference null and throw. -/
def ordersPostHandler (tokenEmail : String) (body : OrderBody) (now : Nat)
    (genId : String) (db : DB) : Response × DB :=
  match findUserByEmail db tokenEmail with
  | none => (.thrown, db)
  | some u =>
    if u.status = some "fraud" ∧ u.role = some "user" then
      (.fraudBlock "FRAUD_USER" "You are marked as fraud. You cannot place orders.", db)
    else
      (.insertResult genId,
       { db with orders := db.orders ++ [orderFromBody genId body now] })

/-- POST /orders route: verifyJWT then the handler. -/
def postOrders (verify : String → Except VerifyError String)
    (hdr : Option String) (body : OrderBody) (now : Nat) (genId : String)
    (db : DB) : Response × DB :=
  protectedRoute verify hdr (fun e d => ordersPostHandler e body now genId d) db

/-- POST /favorites handler: requires truthy userEmail and mealId,
requires the owner field to equal the token email, treats a duplicate
pair as an acknowledged no-op, otherwise inserts. -/
def favoritesPostHandler (tokenEmail : String) (body : FavoriteBody)
    (now : Nat) (genId : String) (db : DB) : Response × DB :=
  if body.userEmail.getD "" = "" ∨ body.mealId.getD "" = "" then
    (.message 400 "userEmail and mealId required", db)
  else if body.userEmail ≠ some tokenEmail then (.message 403 "Forbidden!", db)
  else
    match db.favorites.find?
        (fun f => f.userEmail == body.userEmail.getD "" && f.mealId == body.mealId.getD "") with
    | some _ => (.existsAck, db)
    | none =>
      (.successInsert genId,
       { db with favorites := db.favorites ++
           [{ oid := genId, userEmail := body.userEmail.getD "",
              mealId := body.mealId.getD "", addedTime := some now }] })

/-- POST /favorites route: verifyJWT then the handler. -/
def postFavorites (verify : String → Except VerifyError String)
    (hdr : Option String) (body : FavoriteBody) (now : Nat) (genId : String)
    (db : DB) : Response × DB :=
  protectedRoute verify hdr (fun e d => favoritesPostHandler e body now genId d) db

/-- POST /role-requests handler: requires truthy userEmail and
requestType, requires the owner field to equal the token email, then
inserts with server-set time and pending status. -/
def roleRequestsPostHandler (tokenEmail : String) (body : RoleRequestBody)
    (now : Nat) (genId : String) (db : DB) : Response × DB :=
  if body.userEmail.getD "" = "" ∨ body.requestType.getD "" = "" then
    (.message 400 "Missing fields", db)
  else if body.userEmail ≠ some tokenEmail then (.message 403 "Forbidden!", db)
  else
    (.successInsert genId,
     { db with roleRequests := db.roleRequests ++
         [{ oid := genId, userEmail := body.userEmail.getD "",
            requestType := body.requestType.getD "",
            requestTime := some now, requestStatus := "pending" }] })

/-- POST /role-requests route: verifyJWT then the handler. -/
def postRoleRequests (verify : String → Except VerifyError String)
    (hdr : Option String) (body : RoleRequestBody) (now : Nat)
    (genId : String) (db : DB) : Response × DB :=
  protectedRoute verify hdr (fun e d => roleRequestsPostHandler e body now genId d) db

/-- The chef identifier generated on approval: the prefix chef- followed
by the four-digit draw Math.floor of 1000 plus a random value below
9000, with the raw draw passed in as an argument. -/
def chefIdGen (n : Nat) : String :=
  "chef-" ++ toString (1000 + n % 9000)

/-- PATCH /role-requests/accept/:id handler (runs after verifyAdmin).
The whole body is inside try/catch, so an invalid id throws and is
caught as 500.  userWriteFails models the store raising on the
updateOne of the user record; the request update runs strictly after
that write, so on failure the request document is untouched. -/
def acceptRoleRequestHandler (rid : String) (chefNum : Nat)
    (userWriteFails : Bool) (db : DB) : Response × DB :=
  if isValidObjectId rid then
    match findRoleRequestById db rid with
    | none => (.message 404 "Request not found", db)
    | some req =>
      match findUserByEmail db req.userEmail with
      | none => (.message 404 "User not found", db)
      | some _ =>
        if userWriteFails then (.message 500 "Server Error", db)
        else
          let f : UserRecord → UserRecord := fun x =>
            if req.requestType = "chef" then
              { x with role := some req.requestType, chefId := some (chefIdGen chefNum) }
            else { x with role := some req.requestType }
          let users' := updateFirst (fun x => x.email == req.userEmail) f db.users
          let reqs' := updateFirst (fun r => r.oid == rid)
            (fun r => { r with requestStatus := "approved" }) db.roleRequests
          (.successMsg "Request Approved!", { db with users := users', roleRequests := reqs' })
  else (.message 500 "Server Error", db)

/-- PATCH /role-requests/accept/:id route: verifyJWT, verifyAdmin, then
the handler. -/
def patchAcceptRoleRequest (verify : String → Except VerifyError String)
    (hdr : Option String) (rid : String) (chefNum : Nat)
    (userWriteFails : Bool) (db : DB) : Response × DB :=
  protectedRoute verify hdr
    (fun e d => adminGuarded e d (fun _ d' => acceptRoleRequestHandler rid chefNum userWriteFails d')) db

/-- PATCH /role-requests/reject/:id handler (runs after verifyAdmin):
only the request document changes status; the users collection is never
written. -/
def rejectRoleRequestHandler (rid : String) (db : DB) : Response × DB :=
  if isValidObjectId rid then
    match findRoleRequestById db rid with
    | none => (.message 404 "Request not found", db)
    | some _ =>
      let reqs' := updateFirst (fun r => r.oid == rid)
        (fun r => { r with requestStatus := "rejected" }) db.roleRequests
      (.successMsg "Request Rejected!", { db with roleRequests := reqs' })
  else (.message 500 "Server Error", db)

/-- PATCH /role-requests/reject/:id route: verifyJWT, verifyAdmin, then
the handler. -/
def patchRejectRoleRequest (verify : String → Except VerifyError String)
    (hdr : Option String) (rid : String) (db : DB) : Response × DB :=
  protectedRoute verify hdr
    (fun e d => adminGuarded e d (fun _ d' => rejectRoleRequestHandler rid d')) db

/-- GET /meals/:id: the id is validated before any store access. -/
def getMealById (rid : String) (db : DB) : Response × DB :=
  if isValidObjectId rid then
    match findMealById db rid with
    | none => (.message 404 "Meal not found", db)
    | some m => (.mealDoc m, db)
  else (.message 400 "Invalid meal id", db)

/-- GET /orders/:id: the id is validated before any store access. -/
def getOrderById (rid : String) (db : DB) : Response × DB :=
  if isValidObjectId rid then
    match findOrderById db rid with
    | none => (.message 404 "Order not found", db)
    | some o => (.orderDoc o, db)
  else (.message 400 "Invalid order id", db)

/-- DELETE /favorites/:id: no middleware, no id validation and no
try/catch — an invalid id makes the ObjectId constructor throw before
any store access and no response is sent. -/
def deleteFavoriteById (rid : String) (db : DB) : Response × DB :=
  if isValidObjectId rid then
    let r := removeFirst (fun f => f.oid == rid) db.favorites
    (.deleteResult r.1, { db with favorites := r.2 })
  else (.thrown, db)

/-- POST /payment-success: no middleware at all; the header argument is
ignored.  An invalid orderId makes the ObjectId constructor throw (no
try/catch); otherwise the matching order (if any) is marked paid and a
payment document is always inserted. -/
def paymentSuccessRoute (_hdr : Option String) (body : PaymentSuccessBody)
    (now : Nat) (genId : String) (db : DB) : Response × DB :=
  if isValidObjectId body.orderId then
    let orders' := updateFirst (fun o => o.oid == body.orderId)
      (fun o => { o with paymentStatus := some "paid" }) db.orders
    (.successOnly,
     { db with orders := orders',
               payments := db.payments ++
                 [{ oid := genId, orderId := body.orderId,
                    paymentInfo := body.paymentInfo, time := now }] })
  else (.thrown, db)

/-- An identity provider that accepts every token as the given
principal; used to instantiate universally quantified statements. -/
def verifyConst (e : String) : String → Except VerifyError String :=
  fun _ => .ok e

/-- An identity provider that rejects every token as expired. -/
def verifyAllExpired : String → Except VerifyError String :=
  fun _ => .error .expired

/-- An identity provider that rejects every token with a signature
mismatch. -/
def verifyAllBadSig : String → Except VerifyError String :=
  fun _ => .error .badSignature

/-- A concrete downstream handler used to instantiate universally
quantified statements about middleware. -/
def noopHandler : String → DB → Response × DB :=
  fun _ d => (.successOnly, d)

/-- A store holding a single plain (non-admin, non-chef) user. -/
def dbPlainUser : DB :=
  { emptyDB with users := [⟨"u@x.com", some "user", none, none⟩] }

/-- A store holding a single fraud-flagged chef. -/
def dbChefFraud : DB :=
  { emptyDB with users := [⟨"chef@x.com", some "chef", some "fraud", none⟩] }

/-- A store holding a single fraud-flagged plain user. -/
def dbUserFraud : DB :=
  { emptyDB with users := [⟨"u@x.com", some "user", some "fraud", none⟩] }

/-- A store holding a single fraud-flagged admin. -/
def dbAdminFraud : DB :=
  { emptyDB with users := [⟨"adm@x.com", some "admin", some "fraud", none⟩] }

/-- A store holding a single unflagged chef. -/
def dbChefNormal : DB :=
  { emptyDB with users := [⟨"chef@x.com", some "chef", none, none⟩] }

/-- A registration body for the identity a@x.com. -/
def regBody : UserBody := ⟨some "a@x.com", none, none⟩

/-- A pending chef role request under a store-generated valid id. -/
def pendingChefRequest : RoleRequestDoc :=
  ⟨"aaaaaaaaaaaaaaaaaaaaaaaa", "u@x.com", "chef", some 1, "pending"⟩

/-- A store holding an admin, a plain user and the pending chef request
of that user. -/
def dbRoleReq : DB :=
  { emptyDB with
    users := [⟨"adm@x.com", some "admin", none, none⟩,
              ⟨"u@x.com", some "user", none, none⟩],
    roleRequests := [pendingChefRequest] }

/-- A store holding a single unpaid order under a valid id. -/
def dbOrderOne : DB :=
  { emptyDB with orders :=
      [⟨"bbbbbbbbbbbbbbbbbbbbbbbb", some "u@x.com", none, 3, 1, some 1,
        some "pending", some "pending", some 1⟩] }

/-- A list updated on its first match still finds a document under the
same predicate, namely the image of the old one, provided the update
preserves the predicate. -/
theorem find_updateFirst (p : α → Bool) (f : α → α) (l : List α)
    (hpf : ∀ a, p a = true → p (f a) = true) :
    (updateFirst p f l).find? p = (l.find? p).map f := by
  induction l with
  | nil => rfl
  | cons a as ih =>
    by_cases h : p a = true
    · rw [updateFirst, if_pos h, List.find?_cons_of_pos _ (hpf a h),
        List.find?_cons_of_pos _ h, Option.map_some']
    · have h' : ¬ p a := h
      rw [updateFirst, if_neg h', List.find?_cons_of_neg _ h',
        List.find?_cons_of_neg _ h', ih]

/-- Searching an appended list when the first part has no match. -/
theorem find_append_of_none {p : α → Bool} {l₁ : List α} (l₂ : List α)
    (h : l₁.find? p = none) : (l₁ ++ l₂).find? p = l₂.find? p := by
  induction l₁ with
  | nil => rfl
  | cons a as ih =>
    by_cases ha : p a = true
    · rw [List.find?_cons_of_pos _ ha] at h; exact absurd h (by simp)
    · have ha' : ¬ p a := ha
      rw [List.find?_cons_of_neg _ ha'] at h
      rw [List.cons_append, List.find?_cons_of_neg _ ha', ih h]

/-- A filter with no survivors means the search finds nothing. -/
theorem find_eq_none_of_filter_nil {p : α → Bool} {l : List α}
    (h : (l.filter p).length = 0) : l.find? p = none := by
  rw [List.length_eq_zero] at h
  rw [List.find?_eq_none]
  intro a ha
  exact (List.filter_eq_nil_iff.mp h) a ha

/-- Claim C4: for every route behind verifyJWT, a request whose
Authorization header is missing or does not split into exactly two
space-separated segments receives 401; the result is the same for every
identity provider (so no verification is attempted) and for every
downstream handler, and the store is returned unchanged (so neither the
policy checks nor the storage layer is reached). -/
theorem malformed_header_unauthenticated
    (verify : String → Except VerifyError String) (hdr : Option String)
    (handler : String → DB → Response × DB) (db : DB)
    (h : malformedHeader hdr = true) :
    protectedRoute verify hdr handler db = (.message 401 "Unauthorized Access!", db) := by
  cases hdr with
  | none => rfl
  | some a =>
    have hne : (splitSpace a.data).length ≠ 2 := by
      simpa [malformedHeader] using h
    have htok : getTokenFromHeader (some a) = none := by
      unfold getTokenFromHeader
      by_cases ha : a = "" <;> simp [ha, hne]
    simp [protectedRoute, verifyJWT, htok]

/-- Witness for claim C4 at a three-segment header. -/
theorem malformed_header_unauthenticated_witness :
    malformedHeader (some "Bearer a b") = true ∧
    protectedRoute (verifyConst "a@x.com") (some "Bearer a b") noopHandler emptyDB
      = (.message 401 "Unauthorized Access!", emptyDB) :=
  ⟨by decide,
   malformed_header_unauthenticated (verifyConst "a@x.com") (some "Bearer a b")
     noopHandler emptyDB (by decide)⟩

/-- Claim C9, counterexample: two tokens failing verification for
different internal reasons produce responses that are not identical,
because the caught error object is part of the 401 body. -/
theorem verify_error_responses_differ :
    (protectedRoute verifyAllExpired (some "Bearer tok") noopHandler emptyDB).1
      ≠ (protectedRoute verifyAllBadSig (some "Bearer tok") noopHandler emptyDB).1 := by
  decide

/-- Claim C9, amended: every verification failure is mapped to status
401 with the same generic message and an untouched store, but the
response body also carries the caught error, exposing the internal
cause to the caller. -/
theorem verify_error_uniform_status
    (verify : String → Except VerifyError String) (hdr : Option String)
    (token : String) (e : VerifyError)
    (handler : String → DB → Response × DB) (db : DB)
    (ht : getTokenFromHeader hdr = some token) (hne : token ≠ "")
    (hv : verify token = .error e) :
    protectedRoute verify hdr handler db = (.authFail "Unauthorized Access!" e, db)
    ∧ (Response.authFail "Unauthorized Access!" e).statusCode = some 401 := by
  refine ⟨?_, rfl⟩
  simp [protectedRoute, verifyJWT, ht, hne, hv]

/-- Witness for the amended claim C9 at an expired token. -/
theorem verify_error_uniform_status_witness :
    protectedRoute verifyAllExpired (some "Bearer tok") noopHandler emptyDB
      = (.authFail "Unauthorized Access!" .expired, emptyDB)
    ∧ (Response.authFail "Unauthorized Access!" .expired).statusCode = some 401 :=
  verify_error_uniform_status verifyAllExpired (some "Bearer tok") "tok" .expired
    noopHandler emptyDB (by decide) (by decide) rfl

/-- Claim C6, counterexample: on an admin-gated route, an authenticated
principal with no user record receives 403, not the claimed 404. -/
theorem admin_gate_absent_record_403 :
    adminGuarded "ghost@x.com" emptyDB noopHandler = (.message 403 "Admin only!", emptyDB)
    ∧ (Response.message 403 "Admin only!").statusCode ≠ some 404 := by
  decide

/-- Claim C6, amended: the chef gate distinguishes a missing record
(404) from a disallowed role (403), while the admin gate folds both the
missing record and the non-admin role into the same 403 response. -/
theorem role_gate_failures :
    (∀ p db (handler : String → DB → Response × DB),
        findUserByEmail db p = none →
        chefGuarded p db handler = (.message 404 "User not found!", db)
        ∧ adminGuarded p db handler = (.message 403 "Admin only!", db))
    ∧ (∀ p db u (handler : String → DB → Response × DB),
        findUserByEmail db p = some u →
        u.role ≠ some "chef" → u.role ≠ some "admin" →
        chefGuarded p db handler = (.message 403 "Access denied! Chef only.", db))
    ∧ (∀ p db u (handler : String → DB → Response × DB),
        findUserByEmail db p = some u → u.role ≠ some "admin" →
        adminGuarded p db handler = (.message 403 "Admin only!", db)) := by
  refine ⟨?_, ?_, ?_⟩
  · intro p db handler hfind
    constructor <;> simp [chefGuarded, adminGuarded, verifyChef, verifyAdmin, hfind]
  · intro p db u handler hfind hc ha
    simp [chefGuarded, verifyChef, hfind, hc, ha]
  · intro p db u handler hfind ha
    simp [adminGuarded, verifyAdmin, hfind, ha]

/-- Witness for the amended claim C6: all three failure shapes at
concrete stores. -/
theorem role_gate_failures_witness :
    (chefGuarded "ghost@x.com" emptyDB noopHandler = (.message 404 "User not found!", emptyDB)
     ∧ adminGuarded "ghost@x.com" emptyDB noopHandler = (.message 403 "Admin only!", emptyDB))
    ∧ chefGuarded "u@x.com" dbPlainUser noopHandler
        = (.message 403 "Access denied! Chef only.", dbPlainUser)
    ∧ adminGuarded "u@x.com" dbPlainUser noopHandler
        = (.message 403 "Admin only!", dbPlainUser) :=
  ⟨role_gate_failures.1 "ghost@x.com" emptyDB noopHandler (by decide),
   role_gate_failures.2.1 "u@x.com" dbPlainUser ⟨"u@x.com", some "user", none, none⟩
     noopHandler (by decide) (by decide) (by decide),
   role_gate_failures.2.2 "u@x.com" dbPlainUser ⟨"u@x.com", some "user", none, none⟩
     noopHandler (by decide) (by decide)⟩

/-- Claim C7, counterexample: DELETE of a favorite under a syntactically
invalid identifier does not respond 400 — the handler throws without
sending anything, because the route never validates the identifier. -/
theorem delete_favorite_invalid_id_not_400 :
    isValidObjectId "not-an-id" = false
    ∧ (deleteFavoriteById "not-an-id" emptyDB).1.statusCode ≠ some 400 := by
  decide

/-- Claim C7, amended: the identifier-keyed routes that do validate
(GET meals by id, GET orders by id) respond 400 on an invalid
identifier with the store untouched and a response independent of the
store contents, while DELETE favorites by id performs no validation and
throws (never producing the 400 response), also before any store
access. -/
theorem invalid_id_handling (rid : String) (db : DB)
    (h : isValidObjectId rid = false) :
    getMealById rid db = (.message 400 "Invalid meal id", db)
    ∧ getOrderById rid db = (.message 400 "Invalid order id", db)
    ∧ deleteFavoriteById rid db = (.thrown, db) := by
  refine ⟨?_, ?_, ?_⟩ <;>
    simp [getMealById, getOrderById, deleteFavoriteById, h]

/-- Witness for the amended claim C7 at a malformed identifier. -/
theorem invalid_id_handling_witness :
    getMealById "not-valid" emptyDB = (.message 400 "Invalid meal id", emptyDB)
    ∧ getOrderById "not-valid" emptyDB = (.message 400 "Invalid order id", emptyDB)
    ∧ deleteFavoriteById "not-valid" emptyDB = (.thrown, emptyDB) :=
  invalid_id_handling "not-valid" emptyDB (by decide)

/-- Claim C1: a fraud-flagged chef is blocked with 403 on meal creation
and nothing is inserted; a fraud-flagged plain user is blocked with 403
on order creation and nothing is inserted; a principal whose record has
role admin passes the status checks on both routes and the insertion
happens regardless of the status field. -/
theorem fraud_gate_behavior :
    (∀ (verify : String → Except VerifyError String) hdr p (body : MealBody) now g db u,
        verifyJWT verify hdr = .ok p →
        findUserByEmail db p = some u →
        u.role = some "chef" → u.status = some "fraud" →
        postMeals verify hdr body now g db
          = (.fraudBlock "FRAUD_USER" "You are marked as fraud. You cannot create meals.", db))
    ∧ (∀ (verify : String → Except VerifyError String) hdr p (body : OrderBody) now g db u,
        verifyJWT verify hdr = .ok p →
        findUserByEmail db p = some u →
        u.role = some "user" → u.status = some "fraud" →
        postOrders verify hdr body now g db
          = (.fraudBlock "FRAUD_USER" "You are marked as fraud. You cannot place orders.", db))
    ∧ (∀ (verify : String → Except VerifyError String) hdr p (mb : MealBody) (ob : OrderBody) now g db u,
        verifyJWT verify hdr = .ok p →
        findUserByEmail db p = some u →
        u.role = some "admin" →
        postMeals verify hdr mb now g db
          = (.insertResult g, { db with meals := db.meals ++ [mealFromBody g mb now] })
        ∧ postOrders verify hdr ob now g db
          = (.insertResult g, { db with orders := db.orders ++ [orderFromBody g ob now] })) := by
  refine ⟨?_, ?_, ?_⟩
  · intro verify hdr p body now g db u hauth hfind hrole hstatus
    simp [postMeals, protectedRoute, hauth, chefGuarded, verifyChef, hfind,
      mealsPostHandler, hrole, hstatus]
  · intro verify hdr p body now g db u hauth hfind hrole hstatus
    simp [postOrders, protectedRoute, hauth, ordersPostHandler, hfind, hrole, hstatus]
  · intro verify hdr p mb ob now g db u hauth hfind hrole
    constructor
    · simp [postMeals, protectedRoute, hauth, chefGuarded, verifyChef, hfind,
        mealsPostHandler, hrole]
    · simp [postOrders, protectedRoute, hauth, ordersPostHandler, hfind, hrole]

/-- Witness for claim C1: the three behaviors at concrete stores. -/
theorem fraud_gate_behavior_witness :
    postMeals (verifyConst "chef@x.com") (some "Bearer tok") ⟨some "chef@x.com", "Rice"⟩ 5 "m1" dbChefFraud
      = (.fraudBlock "FRAUD_USER" "You are marked as fraud. You cannot create meals.", dbChefFraud)
    ∧ postOrders (verifyConst "u@x.com") (some "Bearer tok") ⟨some "u@x.com", none, 3, 1⟩ 5 "o1" dbUserFraud
      = (.fraudBlock "FRAUD_USER" "You are marked as fraud. You cannot place orders.", dbUserFraud)
    ∧ (postMeals (verifyConst "adm@x.com") (some "Bearer tok") ⟨none, "Rice"⟩ 5 "x1" dbAdminFraud
        = (.insertResult "x1", { dbAdminFraud with meals := dbAdminFraud.meals ++ [mealFromBody "x1" ⟨none, "Rice"⟩ 5] })
      ∧ postOrders (verifyConst "adm@x.com") (some "Bearer tok") ⟨none, none, 3, 1⟩ 5 "x1" dbAdminFraud
        = (.insertResult "x1", { dbAdminFraud with orders := dbAdminFraud.orders ++ [orderFromBody "x1" ⟨none, none, 3, 1⟩ 5] })) :=
  ⟨fraud_gate_behavior.1 (verifyConst "chef@x.com") (some "Bearer tok") "chef@x.com"
     ⟨some "chef@x.com", "Rice"⟩ 5 "m1" dbChefFraud
     ⟨"chef@x.com", some "chef", some "fraud", none⟩ (by decide) (by decide) rfl rfl,
   fraud_gate_behavior.2.1 (verifyConst "u@x.com") (some "Bearer tok") "u@x.com"
     ⟨some "u@x.com", none, 3, 1⟩ 5 "o1" dbUserFraud
     ⟨"u@x.com", some "user", some "fraud", none⟩ (by decide) (by decide) rfl rfl,
   fraud_gate_behavior.2.2 (verifyConst "adm@x.com") (some "Bearer tok") "adm@x.com"
     ⟨none, "Rice"⟩ ⟨none, none, 3, 1⟩ 5 "x1" dbAdminFraud
     ⟨"adm@x.com", some "admin", some "fraud", none⟩ (by decide) (by decide) rfl⟩

/-- Claim C2: evaluation of meal creation at the failing input — an
authenticated unflagged chef posts a meal whose owner field names a
different identity, and the route stores that foreign owner field
unchanged instead of enforcing it to equal the principal. -/
theorem meal_stored_with_foreign_owner :
    (postMeals (verifyConst "chef@x.com") (some "Bearer tok")
        ⟨some "other@y.com", "Rice"⟩ 5 "m1" dbChefNormal).1 = .insertResult "m1"
    ∧ (postMeals (verifyConst "chef@x.com") (some "Bearer tok")
        ⟨some "other@y.com", "Rice"⟩ 5 "m1" dbChefNormal).2.meals
      = [{ oid := "m1", chefEmail := some "other@y.com", title := "Rice", createdAt := some 5 }]
    ∧ some "other@y.com" ≠ some "chef@x.com" := by
  decide

/-- Claim C3, counterexample: a favorites creation whose owner field
differs from the principal but whose body lacks the mealId field is
answered with 400, not with the claimed 403. -/
theorem favorites_owner_mismatch_can_yield_400 :
    (postFavorites (verifyConst "a@x.com") (some "Bearer tok")
        ⟨some "b@x.com", none⟩ 0 "f1" emptyDB).1
      = .message 400 "userEmail and mealId required"
    ∧ (postFavorites (verifyConst "a@x.com") (some "Bearer tok")
        ⟨some "b@x.com", none⟩ 0 "f1" emptyDB).1.statusCode ≠ some 403
    ∧ ("b@x.com" : String) ≠ "a@x.com" := by
  decide

/-- Claim C3, amended: on each self-ownership-gated creation route, a
body that passes the required-field validation of the route and whose
owner field differs from the resolved principal is answered 403 and the
store is returned unchanged; a body failing the required-field check is
answered 400 before the ownership check runs. -/
theorem self_ownership_mismatch_403 :
    (∀ (verify : String → Except VerifyError String) hdr p (body : UserBody) g db e,
        verifyJWT verify hdr = .ok p →
        body.email = some e → e ≠ "" → e ≠ p →
        postUsers verify hdr body g db = (.message 403 "Forbidden!", db))
    ∧ (∀ (verify : String → Except VerifyError String) hdr p (body : FavoriteBody) now g db e m,
        verifyJWT verify hdr = .ok p →
        body.userEmail = some e → e ≠ "" →
        body.mealId = some m → m ≠ "" → e ≠ p →
        postFavorites verify hdr body now g db = (.message 403 "Forbidden!", db))
    ∧ (∀ (verify : String → Except VerifyError String) hdr p (body : RoleRequestBody) now g db e t,
        verifyJWT verify hdr = .ok p →
        body.userEmail = some e → e ≠ "" →
        body.requestType = some t → t ≠ "" → e ≠ p →
        postRoleRequests verify hdr body now g db = (.message 403 "Forbidden!", db)) := by
  refine ⟨?_, ?_, ?_⟩
  · intro verify hdr p body g db e hauth hemail hne hnep
    have hpe : p ≠ e := fun h => hnep h.symm
    simp [postUsers, protectedRoute, hauth, usersPostHandler, hemail, hne, hpe]
  · intro verify hdr p body now g db e m hauth huser hne hmeal hmne hnep
    simp [postFavorites, protectedRoute, hauth, favoritesPostHandler, huser, hne,
      hmeal, hmne, hnep]
  · intro verify hdr p body now g db e t hauth huser hne htype htne hnep
    simp [postRoleRequests, protectedRoute, hauth, roleRequestsPostHandler, huser,
      hne, htype, htne, hnep]

/-- Witness for the amended claim C3: the three routes at concrete
mismatched bodies. -/
theorem self_ownership_mismatch_403_witness :
    postUsers (verifyConst "a@x.com") (some "Bearer tok") ⟨some "b@x.com", none, none⟩ "u1" emptyDB
      = (.message 403 "Forbidden!", emptyDB)
    ∧ postFavorites (verifyConst "a@x.com") (some "Bearer tok") ⟨some "b@x.com", some "m9"⟩ 0 "f1" emptyDB
      = (.message 403 "Forbidden!", emptyDB)
    ∧ postRoleRequests (verifyConst "a@x.com") (some "Bearer tok") ⟨some "b@x.com", some "chef"⟩ 0 "r1" emptyDB
      = (.message 403 "Forbidden!", emptyDB) :=
  ⟨self_ownership_mismatch_403.1 (verifyConst "a@x.com") (some "Bearer tok") "a@x.com"
     ⟨some "b@x.com", none, none⟩ "u1" emptyDB "b@x.com" (by decide) rfl (by decide) (by decide),
   self_ownership_mismatch_403.2.1 (verifyConst "a@x.com") (some "Bearer tok") "a@x.com"
     ⟨some "b@x.com", some "m9"⟩ 0 "f1" emptyDB "b@x.com" "m9" (by decide) rfl (by decide) rfl
     (by decide) (by decide),
   self_ownership_mismatch_403.2.2 (verifyConst "a@x.com") (some "Bearer tok") "a@x.com"
     ⟨some "b@x.com", some "chef"⟩ 0 "r1" emptyDB "b@x.com" "chef" (by decide) rfl (by decide)
     rfl (by decide) (by decide)⟩

/-- Claim C8: self-registration is idempotent — starting from a store
with no record for the identity, the first call succeeds with an
insertion acknowledgment, the second call with the same body succeeds
with the already-exists message, performs no write, and exactly one
record for the identity is stored. -/
theorem selfreg_idempotent
    (verify : String → Except VerifyError String) (hdr : Option String)
    (p : String) (body : UserBody) (g1 g2 : String) (db : DB)
    (hauth : verifyJWT verify hdr = .ok p)
    (hemail : body.email = some p) (hne : p ≠ "")
    (hcount : (db.users.filter (fun x => x.email == p)).length = 0) :
    (postUsers verify hdr body g1 db).1 = .insertResult g1
    ∧ (postUsers verify hdr body g2 (postUsers verify hdr body g1 db).2).1
        = .message 200 "User already exists"
    ∧ (postUsers verify hdr body g2 (postUsers verify hdr body g1 db).2).2
        = (postUsers verify hdr body g1 db).2
    ∧ ((postUsers verify hdr body g1 db).2.users.filter (fun x => x.email == p)).length = 1 := by
  have hfind : findUserByEmail db p = none :=
    find_eq_none_of_filter_nil hcount
  have hfirst : postUsers verify hdr body g1 db
      = (.insertResult g1,
         { db with users := db.users ++
             [{ email := p, role := body.role, status := body.status, chefId := none }] }) := by
    simp [postUsers, protectedRoute, hauth, usersPostHandler, hemail, hne, hfind]
  have hfind2 : findUserByEmail
      { db with users := db.users ++
          [{ email := p, role := body.role, status := body.status, chefId := none }] } p
      = some { email := p, role := body.role, status := body.status, chefId := none } := by
    unfold findUserByEmail at hfind ⊢
    rw [find_append_of_none _ hfind]
    simp
  refine ⟨by rw [hfirst], ?_, ?_, ?_⟩
  · rw [hfirst]
    simp [postUsers, protectedRoute, hauth, usersPostHandler, hemail, hne, hfind2]
  · rw [hfirst]
    simp [postUsers, protectedRoute, hauth, usersPostHandler, hemail, hne, hfind2]
  · rw [hfirst]
    have hnil : db.users.filter (fun x => x.email == p) = [] :=
      List.length_eq_zero.mp hcount
    simp [List.filter_append, hnil]

/-- Witness for claim C8: double registration of a@x.com on an empty
store. -/
theorem selfreg_idempotent_witness :
    (postUsers (verifyConst "a@x.com") (some "Bearer tok") regBody "u1" emptyDB).1 = .insertResult "u1"
    ∧ (postUsers (verifyConst "a@x.com") (some "Bearer tok") regBody "u2"
        (postUsers (verifyConst "a@x.com") (some "Bearer tok") regBody "u1" emptyDB).2).1
        = .message 200 "User already exists"
    ∧ (postUsers (verifyConst "a@x.com") (some "Bearer tok") regBody "u2"
        (postUsers (verifyConst "a@x.com") (some "Bearer tok") regBody "u1" emptyDB).2).2
        = (postUsers (verifyConst "a@x.com") (some "Bearer tok") regBody "u1" emptyDB).2
    ∧ ((postUsers (verifyConst "a@x.com") (some "Bearer tok") regBody "u1" emptyDB).2.users.filter
        (fun x => x.email == "a@x.com")).length = 1 :=
  selfreg_idempotent (verifyConst "a@x.com") (some "Bearer tok") "a@x.com" regBody
    "u1" "u2" emptyDB (by decide) rfl (by decide) (by decide)

/-- The generated chef identifier is never the empty string. -/
theorem chefIdGen_ne_empty (n : Nat) : chefIdGen n ≠ "" := by
  intro h
  have h5 : (chefIdGen n).length = 5 + (toString (1000 + n % 9000)).length := by
    unfold chefIdGen
    rw [String.length_append]
    have hc : ("chef-" : String).length = 5 := by decide
    rw [hc]
  have h0 : ("" : String).length = 0 := rfl
  rw [h, h0] at h5
  omega

/-- Claim C5: approving a chef role request (behind verifyJWT and
verifyAdmin) rewrites the linked user record to role chef with the
non-empty generated chef identifier and transitions the request to
approved; the user-record write runs strictly first, so when that write
fails the whole store — the pending request included — is unchanged and
the route answers 500; rejecting only transitions the request to
rejected and never writes the users collection. -/
theorem role_request_transition :
    (∀ (verify : String → Except VerifyError String) hdr p a rid n db req u,
        verifyJWT verify hdr = .ok p →
        findUserByEmail db p = some a → a.role = some "admin" →
        isValidObjectId rid = true →
        findRoleRequestById db rid = some req →
        req.requestType = "chef" →
        findUserByEmail db req.userEmail = some u →
        (patchAcceptRoleRequest verify hdr rid n false db).1 = .successMsg "Request Approved!"
        ∧ findUserByEmail (patchAcceptRoleRequest verify hdr rid n false db).2 req.userEmail
            = some { u with role := some "chef", chefId := some (chefIdGen n) }
        ∧ chefIdGen n ≠ ""
        ∧ findRoleRequestById (patchAcceptRoleRequest verify hdr rid n false db).2 rid
            = some { req with requestStatus := "approved" })
    ∧ (∀ (verify : String → Except VerifyError String) hdr p a rid n db req u,
        verifyJWT verify hdr = .ok p →
        findUserByEmail db p = some a → a.role = some "admin" →
        isValidObjectId rid = true →
        findRoleRequestById db rid = some req →
        findUserByEmail db req.userEmail = some u →
        patchAcceptRoleRequest verify hdr rid n true db = (.message 500 "Server Error", db))
    ∧ (∀ (verify : String → Except VerifyError String) hdr p a rid db req,
        verifyJWT verify hdr = .ok p →
        findUserByEmail db p = some a → a.role = some "admin" →
        isValidObjectId rid = true →
        findRoleRequestById db rid = some req →
        (patchRejectRoleRequest verify hdr rid db).1 = .successMsg "Request Rejected!"
        ∧ (patchRejectRoleRequest verify hdr rid db).2.users = db.users
        ∧ findRoleRequestById (patchRejectRoleRequest verify hdr rid db).2 rid
            = some { req with requestStatus := "rejected" }) := by
  refine ⟨?_, ?_, ?_⟩
  · intro verify hdr p a rid n db req u hauth hfa hra hval hreq hct huser
    have hstep : patchAcceptRoleRequest verify hdr rid n false db
        = (.successMsg "Request Approved!",
           { db with
             users := updateFirst (fun x => x.email == req.userEmail)
               (fun x => { x with role := some "chef", chefId := some (chefIdGen n) }) db.users,
             roleRequests := updateFirst (fun r => r.oid == rid)
               (fun r => { r with requestStatus := "approved" }) db.roleRequests }) := by
      simp [patchAcceptRoleRequest, protectedRoute, hauth, adminGuarded, verifyAdmin,
        hfa, hra, acceptRoleRequestHandler, hval, hreq, huser, hct]
    refine ⟨by rw [hstep], ?_, chefIdGen_ne_empty n, ?_⟩
    · rw [hstep]
      unfold findUserByEmail at huser ⊢
      dsimp only
      rw [find_updateFirst (fun x => x.email == req.userEmail)
            (fun x => { x with role := some "chef", chefId := some (chefIdGen n) })
            db.users (fun _ hx => hx), huser]
      rfl
    · rw [hstep]
      unfold findRoleRequestById at hreq ⊢
      dsimp only
      rw [find_updateFirst (fun r => r.oid == rid)
            (fun r => { r with requestStatus := "approved" })
            db.roleRequests (fun _ hx => hx), hreq]
      rfl
  · intro verify hdr p a rid n db req u hauth hfa hra hval hreq huser
    simp [patchAcceptRoleRequest, protectedRoute, hauth, adminGuarded, verifyAdmin,
      hfa, hra, acceptRoleRequestHandler, hval, hreq, huser]
  · intro verify hdr p a rid db req hauth hfa hra hval hreq
    have hstep : patchRejectRoleRequest verify hdr rid db
        = (.successMsg "Request Rejected!",
           { db with
             roleRequests := updateFirst (fun r => r.oid == rid)
               (fun r => { r with requestStatus := "rejected" }) db.roleRequests }) := by
      simp [patchRejectRoleRequest, protectedRoute, hauth, adminGuarded, verifyAdmin,
        hfa, hra, rejectRoleRequestHandler, hval, hreq]
    refine ⟨by rw [hstep], by rw [hstep], ?_⟩
    rw [hstep]
    unfold findRoleRequestById at hreq ⊢
    dsimp only
    rw [find_updateFirst (fun r => r.oid == rid)
          (fun r => { r with requestStatus := "rejected" })
          db.roleRequests (fun _ hx => hx), hreq]
    rfl

/-- Witness for claim C5: approval, failed approval and rejection of
the pending chef request at a concrete store. -/
theorem role_request_transition_witness :
    ((patchAcceptRoleRequest (verifyConst "adm@x.com") (some "Bearer tok")
        "aaaaaaaaaaaaaaaaaaaaaaaa" 234 false dbRoleReq).1 = .successMsg "Request Approved!"
     ∧ findUserByEmail (patchAcceptRoleRequest (verifyConst "adm@x.com") (some "Bearer tok")
        "aaaaaaaaaaaaaaaaaaaaaaaa" 234 false dbRoleReq).2 "u@x.com"
        = some ⟨"u@x.com", some "chef", none, some (chefIdGen 234)⟩
     ∧ chefIdGen 234 ≠ ""
     ∧ findRoleRequestById (patchAcceptRoleRequest (verifyConst "adm@x.com") (some "Bearer tok")
        "aaaaaaaaaaaaaaaaaaaaaaaa" 234 false dbRoleReq).2 "aaaaaaaaaaaaaaaaaaaaaaaa"
        = some ⟨"aaaaaaaaaaaaaaaaaaaaaaaa", "u@x.com", "chef", some 1, "approved"⟩)
    ∧ patchAcceptRoleRequest (verifyConst "adm@x.com") (some "Bearer tok")
        "aaaaaaaaaaaaaaaaaaaaaaaa" 234 true dbRoleReq = (.message 500 "Server Error", dbRoleReq)
    ∧ ((patchRejectRoleRequest (verifyConst "adm@x.com") (some "Bearer tok")
        "aaaaaaaaaaaaaaaaaaaaaaaa" dbRoleReq).1 = .successMsg "Request Rejected!"
     ∧ (patchRejectRoleRequest (verifyConst "adm@x.com") (some "Bearer tok")
        "aaaaaaaaaaaaaaaaaaaaaaaa" dbRoleReq).2.users = dbRoleReq.users
     ∧ findRoleRequestById (patchRejectRoleRequest (verifyConst "adm@x.com") (some "Bearer tok")
        "aaaaaaaaaaaaaaaaaaaaaaaa" dbRoleReq).2 "aaaaaaaaaaaaaaaaaaaaaaaa"
        = some ⟨"aaaaaaaaaaaaaaaaaaaaaaaa", "u@x.com", "chef", some 1, "rejected"⟩) :=
  ⟨role_request_transition.1 (verifyConst "adm@x.com") (some "Bearer tok") "adm@x.com"
     ⟨"adm@x.com", some "admin", none, none⟩ "aaaaaaaaaaaaaaaaaaaaaaaa" 234 dbRoleReq
     pendingChefRequest ⟨"u@x.com", some "user", none, none⟩
     (by decide) (by decide) rfl (by decide) (by decide) rfl (by decide),
   role_request_transition.2.1 (verifyConst "adm@x.com") (some "Bearer tok") "adm@x.com"
     ⟨"adm@x.com", some "admin", none, none⟩ "aaaaaaaaaaaaaaaaaaaaaaaa" 234 dbRoleReq
     pendingChefRequest ⟨"u@x.com", some "user", none, none⟩
     (by decide) (by decide) rfl (by decide) (by decide) (by decide),
   role_request_transition.2.2 (verifyConst "adm@x.com") (some "Bearer tok") "adm@x.com"
     ⟨"adm@x.com", some "admin", none, none⟩ "aaaaaaaaaaaaaaaaaaaaaaaa" dbRoleReq
     pendingChefRequest (by decide) (by decide) rfl (by decide) (by decide)⟩

/-- Claim C10: the payment-success route runs no middleware — its result
is literally independent of the Authorization header — performs no
ownership or order-existence check, marks the order named by a valid
orderId as paid, always appends a payment document linking the orderId
to the supplied paymentInfo, and answers success. -/
theorem payment_success_no_auth
    (hdr : Option String) (body : PaymentSuccessBody) (now : Nat) (g : String)
    (db : DB) (o : OrderDoc)
    (hv : isValidObjectId body.orderId = true)
    (ho : findOrderById db body.orderId = some o) :
    (paymentSuccessRoute hdr body now g db).1 = .successOnly
    ∧ findOrderById (paymentSuccessRoute hdr body now g db).2 body.orderId
        = some { o with paymentStatus := some "paid" }
    ∧ (paymentSuccessRoute hdr body now g db).2.payments
        = db.payments ++ [{ oid := g, orderId := body.orderId,
                            paymentInfo := body.paymentInfo, time := now }]
    ∧ paymentSuccessRoute hdr body now g db = paymentSuccessRoute none body now g db := by
  have hstep : paymentSuccessRoute hdr body now g db
      = (.successOnly,
         { db with
           orders := updateFirst (fun x => x.oid == body.orderId)
             (fun x => { x with paymentStatus := some "paid" }) db.orders,
           payments := db.payments ++
             [{ oid := g, orderId := body.orderId,
                paymentInfo := body.paymentInfo, time := now }] }) := by
    simp [paymentSuccessRoute, hv]
  refine ⟨by rw [hstep], ?_, by rw [hstep], rfl⟩
  rw [hstep]
  unfold findOrderById at ho ⊢
  dsimp only
  rw [find_updateFirst (fun x => x.oid == body.orderId)
        (fun x => { x with paymentStatus := some "paid" })
        db.orders (fun _ hx => hx), ho]
  rfl

/-- Witness for claim C10: an anonymous caller marks the stored order as
paid. -/
theorem payment_success_no_auth_witness :
    (paymentSuccessRoute (some "Bearer tok") ⟨"bbbbbbbbbbbbbbbbbbbbbbbb", "card"⟩ 9 "p1" dbOrderOne).1
      = .successOnly
    ∧ findOrderById (paymentSuccessRoute (some "Bearer tok")
        ⟨"bbbbbbbbbbbbbbbbbbbbbbbb", "card"⟩ 9 "p1" dbOrderOne).2 "bbbbbbbbbbbbbbbbbbbbbbbb"
      = some ⟨"bbbbbbbbbbbbbbbbbbbbbbbb", some "u@x.com", none, 3, 1, some 1,
              some "pending", some "paid", some 1⟩
    ∧ (paymentSuccessRoute (some "Bearer tok")
        ⟨"bbbbbbbbbbbbbbbbbbbbbbbb", "card"⟩ 9 "p1" dbOrderOne).2.payments
      = dbOrderOne.payments ++ [⟨"p1", "bbbbbbbbbbbbbbbbbbbbbbbb", "card", 9⟩]
    ∧ paymentSuccessRoute (some "Bearer tok") ⟨"bbbbbbbbbbbbbbbbbbbbbbbb", "card"⟩ 9 "p1" dbOrderOne
      = paymentSuccessRoute none ⟨"bbbbbbbbbbbbbbbbbbbbbbbb", "card"⟩ 9 "p1" dbOrderOne :=
  payment_success_no_auth (some "Bearer tok") ⟨"bbbbbbbbbbbbbbbbbbbbbbbb", "card"⟩ 9 "p1"
    dbOrderOne ⟨"bbbbbbbbbbbbbbbbbbbbbbbb", some "u@x.com", none, 3, 1, some 1,
                some "pending", some "pending", some 1⟩ (by decide) (by decide)

end CookApp
